import Mathlib

/-!
Verification of the image relevance-classification and adaptive-resizing
pipeline (`src/python/image_optimizer.py`).

Modelling conventions:
* Pixel dimensions and color counts are natural numbers; score arithmetic,
  performed with floats in the source, is modelled with exact real numbers
  (the resize geometry, which is rational, is modelled with exact rationals).
* Pixel access is outside the model: an image is abstracted by its width,
  height, and the outcome of `getcolors` on the pixel sample (`none` when
  more than 65536 distinct colors were found, per the PIL contract).
* The source rounds some *reported* copies of values (aspect ratio to 2
  decimals, scores to 3, the resize scale factor to 4) when building its JSON
  output; all decisions in the source are taken on the unrounded values, and
  the model records the exact values, noting the display rounding in the
  doc comment of each affected definition.
-/

set_option linter.unusedVariables false

namespace ImageOptimizer

/-- The `ImageCategory` enumeration of the source: classification of image
types for VLM relevance filtering. -/
inductive ImageCategory where
  | photo
  | chart
  | document
  | logo
  | icon
  | decorative
  | unknown
deriving DecidableEq, Repr

/-- Threshold `MIN_DIMENSION_VLM` of the source: skip images smaller than
this. -/
def MIN_DIMENSION_VLM : ℕ := 50

/-- Threshold `MIN_RELEVANCE_SCORE` of the source: below this, definitely
skip VLM. -/
def MIN_RELEVANCE_SCORE : ℝ := 0.3

/-- Threshold `LOGO_COLOR_THRESHOLD` of the source: images with fewer colors
are likely logos. -/
def LOGO_COLOR_THRESHOLD : ℕ := 16

/-- Limit `OCR_MAX_WIDTH` of the source: the OCR service width ceiling. -/
def OCR_MAX_WIDTH : ℕ := 4800

/-- Limit `VLM_MAX_DIMENSION` of the source: the VLM optimal size. -/
def VLM_MAX_DIMENSION : ℕ := 2048

/-- Normalization step of `get_color_diversity` in the source. The pixel
sampling that precedes it (a nearest-neighbor downsample to at most 10000
pixels) is pixel-level work outside the model; the input here is the outcome
of `getcolors(maxcolors=65536)` on the sample: `none` when the sample has
more than 65536 distinct colors, `some n` when it has `n`. Returns the
`(unique_colors, diversity_score)` pair of the source. -/
noncomputable def get_color_diversity (colors : Option ℕ) : ℕ × ℝ :=
  match colors with
  | none => (65536, 1)
  | some unique_colors =>
    if unique_colors ≤ 1 then (unique_colors, 0)
    else if 256 ≤ unique_colors then (unique_colors, 1)
    else (unique_colors, Real.logb 2 unique_colors / 8)

/-- The `calculate_aspect_score` function of the source. Normal ratios score
1.0, extreme ratios score lower. The literal `4` is the source constant
EXTREME_ASPECT_RATIO = 4.0. -/
noncomputable def calculate_aspect_score (width height : ℕ) : ℝ :=
  if width = 0 ∨ height = 0 then 0
  else
    let r : ℝ := (max width height : ℝ) / (min width height : ℝ)
    if r ≤ 2 then 1
    else if r ≤ 4 then 1 - 0.5 * (r - 2) / (4 - 2)
    else max 0.1 (0.5 - 0.1 * (r - 4))

/-- The `calculate_size_score` function of the source: stepped score from the
pixel count. -/
noncomputable def calculate_size_score (width height : ℕ) : ℝ :=
  let pixels := width * height
  if pixels < 50 * 50 then 0
  else if pixels < 100 * 100 then 0.2
  else if pixels < 200 * 200 then 0.4
  else if pixels < 400 * 400 then 0.7
  else 1

/-- The `predict_category` function of the source: ordered first-match rules
over dimensions, color count and diversity. -/
noncomputable def predict_category (width height unique_colors : ℕ)
    (color_diversity : ℝ) : ImageCategory :=
  let max_dim := max width height
  let min_dim := min width height
  let pixels := width * height
  let aspect_r : ℝ := if 0 < min_dim then (max_dim : ℝ) / (min_dim : ℝ) else 999
  if max_dim < 64 then .icon
  else if unique_colors < 8 ∧ max_dim < 200 then .icon
  else if unique_colors < LOGO_COLOR_THRESHOLD ∧ max_dim < 400 then .logo
  else if 6 < aspect_r then .decorative
  else if 0.7 < color_diversity ∧ 200 * 200 < pixels then .photo
  else if LOGO_COLOR_THRESHOLD ≤ unique_colors ∧ unique_colors < 256 then
    (if aspect_r < 2 then .chart else .document)
  else if 256 ≤ unique_colors then .photo
  else .unknown

/-- The `category_bonus` mapping built inside `analyze_image` in the
source. -/
noncomputable def category_bonus : ImageCategory → ℝ
  | .photo => 1.0
  | .chart => 1.0
  | .document => 0.9
  | .unknown => 0.5
  | .logo => 0.2
  | .icon => 0.1
  | .decorative => 0.1

/-- Skip reasons produced by the decision cascade of `analyze_image`. The
source renders each as an English string; the payloads record the values
interpolated into that string. Among the four generated strings, the
substring "Too small" (tested by the directory tally) occurs exactly in the
`tooSmall` one. -/
inductive SkipReason where
  | tooSmall (width height : ℕ)
  | predictedCategory (c : ImageCategory)
  | likelyLogo (relevance : ℝ)
  | lowRelevance (relevance : ℝ)

/-- Abstraction of a decoded image as `analyze_image` observes it: its
dimensions plus the `getcolors` outcome on the diversity sample (see
`get_color_diversity`). -/
structure SourceImage where
  width : ℕ
  height : ℕ
  colors : Option ℕ

/-- The `ImageAnalysis` dataclass of the source. The source stores rounded
copies of `aspect_ratio` (2 decimals, field `aspect_ratio_value` here) and of
the four scores (3 decimals) for JSON display; the model stores the exact
values, which are the ones every decision in the source is taken on. -/
structure ImageAnalysis where
  width : ℕ
  height : ℕ
  aspect_ratio_value : ℝ
  unique_colors : ℕ
  color_diversity_score : ℝ
  size_score : ℝ
  aspect_score : ℝ
  overall_relevance : ℝ
  predicted_category : ImageCategory
  should_vlm : Bool
  skip_reason : Option SkipReason

/-- The `analyze_image` function of the source: computes the metrics, the
category, the weighted overall relevance, and the should-process decision
with its skip reason. -/
noncomputable def analyze_image (img : SourceImage) : ImageAnalysis :=
  let width := img.width
  let height := img.height
  let aspect_r : ℝ :=
    if 0 < min width height then (max width height : ℝ) / (min width height : ℝ)
    else 999
  let unique_colors := (get_color_diversity img.colors).1
  let color_diversity := (get_color_diversity img.colors).2
  let size_score := calculate_size_score width height
  let aspect_score := calculate_aspect_score width height
  let category := predict_category width height unique_colors color_diversity
  let overall_relevance :=
    0.30 * size_score + 0.20 * aspect_score + 0.30 * color_diversity +
      0.20 * category_bonus category
  let verdict : Bool × Option SkipReason :=
    if max width height < MIN_DIMENSION_VLM then
      (false, some (.tooSmall width height))
    else if category = .icon ∨ category = .decorative then
      (false, some (.predictedCategory category))
    else if category = .logo ∧ overall_relevance < 0.4 then
      (false, some (.likelyLogo overall_relevance))
    else if overall_relevance < MIN_RELEVANCE_SCORE then
      (false, some (.lowRelevance overall_relevance))
    else (true, none)
  { width := width
    height := height
    aspect_ratio_value := aspect_r
    unique_colors := unique_colors
    color_diversity_score := color_diversity
    size_score := size_score
    aspect_score := aspect_score
    overall_relevance := overall_relevance
    predicted_category := category
    should_vlm := verdict.1
    skip_reason := verdict.2 }

/-- Result record shared by the two resize profiles of the source (the dict
returned on the non-skip paths). The source reports `scale_factor` only on
the resized path, hence the `Option`; the source rounds the reported value
to 4 decimal places for JSON display, the model records the exact scale. -/
structure ResizeResult where
  resized : Bool
  original_width : ℕ
  original_height : ℕ
  output_width : ℕ
  output_height : ℕ
  scale_factor : Option ℚ
deriving DecidableEq, Repr

/-- The `resize_for_ocr` function of the source: width-bounded aspect
preserving downscale. Python's `int(original_height * scale)` truncates
toward zero, which for these nonnegative values is the floor. The encode /
file-save side effects are outside the model. -/
def resize_for_ocr (original_width original_height max_width : ℕ) : ResizeResult :=
  if original_width ≤ max_width then
    { resized := false
      original_width := original_width
      original_height := original_height
      output_width := original_width
      output_height := original_height
      scale_factor := none }
  else
    let scale : ℚ := (max_width : ℚ) / (original_width : ℚ)
    { resized := true
      original_width := original_width
      original_height := original_height
      output_width := max_width
      output_height := (⌊(original_height : ℚ) * scale⌋).toNat
      scale_factor := some scale }

/-- Outcome of the VLM resize profile: too-small inputs are skipped with a
reason and no output dimensions; the rest produce a `ResizeResult`. -/
inductive VlmOutcome where
  | skipped (original_width original_height : ℕ)
  | finished (r : ResizeResult)
deriving DecidableEq, Repr

/-- The `resize_for_vlm` function of the source: max-dimension-bounded aspect
preserving downscale with a too-small skip. Both new dimensions truncate as
in `resize_for_ocr`. -/
def resize_for_vlm (original_width original_height max_dimension skip_below : ℕ) :
    VlmOutcome :=
  let max_dim := max original_width original_height
  if max_dim < skip_below then .skipped original_width original_height
  else if max_dim ≤ max_dimension then
    .finished
      { resized := false
        original_width := original_width
        original_height := original_height
        output_width := original_width
        output_height := original_height
        scale_factor := none }
  else
    let scale : ℚ := (max_dimension : ℚ) / (max_dim : ℚ)
    .finished
      { resized := true
        original_width := original_width
        original_height := original_height
        output_width := (⌊(original_width : ℚ) * scale⌋).toNat
        output_height := (⌊(original_height : ℚ) * scale⌋).toNat
        scale_factor := some scale }

/-- Modelled from the spec: the `round(height*scale)` operation that the spec
attributes to the OCR resize. Python's built-in `round` rounds half to even;
this definition is the spec-side function to compare with the source's
truncation, which `resize_for_ocr` above embeds. -/
def roundHalfEven (q : ℚ) : ℤ :=
  if q - ⌊q⌋ < 1 / 2 then ⌊q⌋
  else if 1 / 2 < q - ⌊q⌋ then ⌊q⌋ + 1
  else if ⌊q⌋ % 2 = 0 then ⌊q⌋ else ⌊q⌋ + 1

/-- The recognized image extensions of `analyze_directory` in the source. -/
def image_extensions : List String :=
  [".png", ".jpg", ".jpeg", ".gif", ".webp", ".bmp", ".tiff", ".tif"]

/-- A directory entry as `analyze_directory` observes it: its path, its
lowercased extension (the source computes `Path(entry).suffix.lower()`; path
syntax and ASCII lowercasing are not modelled, so the field holds that
already-lowercased suffix), and either the decoded image or the message of
the exception that decoding / analysis raised. -/
structure DirEntry where
  path : String
  suffix : String
  content : Except String SourceImage

/-- One element of the `images` array built by `analyze_directory`: either
the per-file analysis summary, or the error entry recorded for a failed
file (whose `should_vlm` the source always sets to `False`). -/
inductive ImageEntry where
  | ok (path : String) (width height : ℕ) (category : ImageCategory)
      (relevance : ℝ) (should_vlm : Bool) (skip_reason : Option SkipReason)
  | err (path error : String) (should_vlm : Bool)

/-- Whether an `images` entry is an error entry. -/
def ImageEntry.isErr : ImageEntry → Bool
  | .err _ _ _ => true
  | _ => false

/-- The `"Too small" in (analysis.skip_reason or "")` test of the source's
directory tally: among the four reason strings the source can generate, the
substring "Too small" occurs exactly in the too-small one. -/
def isTooSmallReason : Option SkipReason → Bool
  | some (.tooSmall _ _) => true
  | _ => false

/-- The result dict of `analyze_directory` in the source: the five outcome
tallies plus the per-file detail array. -/
structure DirResults where
  directory : String
  total : ℕ
  should_vlm : ℕ
  skip_too_small : ℕ
  skip_logo_icon : ℕ
  skip_decorative : ℕ
  skip_low_relevance : ℕ
  images : List ImageEntry

/-- Body of the per-entry loop of `analyze_directory`: skip unrecognized
extensions, count the file, record either its analysis or its error entry,
and bump the matching tally bucket. -/
noncomputable def processEntry (r : DirResults) (e : DirEntry) : DirResults :=
  if e.suffix ∈ image_extensions then
    let r := { r with total := r.total + 1 }
    match e.content with
    | .error msg =>
      { r with images := r.images ++ [.err e.path msg false] }
    | .ok img =>
      let analysis := analyze_image img
      let entry : ImageEntry :=
        .ok e.path analysis.width analysis.height analysis.predicted_category
          analysis.overall_relevance analysis.should_vlm analysis.skip_reason
      let r := { r with images := r.images ++ [entry] }
      if analysis.should_vlm then { r with should_vlm := r.should_vlm + 1 }
      else if isTooSmallReason analysis.skip_reason then
        { r with skip_too_small := r.skip_too_small + 1 }
      else if analysis.predicted_category = .logo ∨
          analysis.predicted_category = .icon then
        { r with skip_logo_icon := r.skip_logo_icon + 1 }
      else if analysis.predicted_category = .decorative then
        { r with skip_decorative := r.skip_decorative + 1 }
      else { r with skip_low_relevance := r.skip_low_relevance + 1 }
  else r

/-- The `analyze_directory` function of the source, as a fold of
`processEntry` over the directory listing. Its `min_relevance` parameter is
declared (and defaulted to MIN_RELEVANCE_SCORE) in the source but never
read in the body, exactly as here. -/
noncomputable def analyze_directory (dir_path : String) (entries : List DirEntry)
    (min_relevance : ℝ) : DirResults :=
  entries.foldl processEntry
    { directory := dir_path
      total := 0
      should_vlm := 0
      skip_too_small := 0
      skip_logo_icon := 0
      skip_decorative := 0
      skip_low_relevance := 0
      images := [] }

/-! ### Helper lemmas -/

lemma logb_div_eight_nonneg {n : ℕ} (h1 : 1 < n) : 0 ≤ Real.logb 2 n / 8 := by
  have : (0 : ℝ) ≤ Real.logb 2 n :=
    Real.logb_nonneg (by norm_num) (by exact_mod_cast h1.le)
  linarith

lemma logb_div_eight_le_one {n : ℕ} (h1 : 1 < n) (h2 : n < 256) :
    Real.logb 2 n / 8 ≤ 1 := by
  have hn : (0 : ℝ) < n := by exact_mod_cast Nat.lt_of_lt_of_le Nat.zero_lt_one h1.le
  have h256 : (n : ℝ) ≤ (2 : ℝ) ^ (8 : ℝ) := by
    rw [show (8 : ℝ) = ((8 : ℕ) : ℝ) by norm_num, Real.rpow_natCast]
    norm_num
    exact_mod_cast h2.le
  have := (Real.logb_le_iff_le_rpow (by norm_num : (1 : ℝ) < 2) hn).mpr h256
  linarith

lemma get_color_diversity_snd_mem (colors : Option ℕ) :
    0 ≤ (get_color_diversity colors).2 ∧ (get_color_diversity colors).2 ≤ 1 := by
  cases colors with
  | none => simp [get_color_diversity]
  | some n =>
    simp only [get_color_diversity]
    split_ifs with hle h256
    · simp
    · simp
    · exact ⟨logb_div_eight_nonneg (by omega), logb_div_eight_le_one (by omega) (by omega)⟩

lemma calculate_size_score_mem (width height : ℕ) :
    0 ≤ calculate_size_score width height ∧ calculate_size_score width height ≤ 1 := by
  simp only [calculate_size_score]
  split_ifs <;> norm_num

lemma calculate_aspect_score_mem (width height : ℕ) :
    0 ≤ calculate_aspect_score width height ∧ calculate_aspect_score width height ≤ 1 := by
  simp only [calculate_aspect_score]
  split_ifs with h0 h2 h4
  · norm_num
  · norm_num
  · constructor <;> [linarith [not_le.mp h2]; linarith [not_le.mp h2]]
  · have h4' := not_le.mp h4
    constructor
    · exact le_trans (by norm_num) (le_max_left _ _)
    · exact max_le (by norm_num) (by linarith)

lemma category_bonus_mem (c : ImageCategory) :
    0.1 ≤ category_bonus c ∧ category_bonus c ≤ 1 := by
  cases c <;> norm_num [category_bonus]

/-! ### Claim theorems -/

/-- C1: for every analyzed image, the overall relevance score equals
0.30*size_score + 0.20*aspect_score + 0.30*diversity_score +
0.20*category_bonus[category], where category_bonus maps Photo to 1.0, Chart
to 1.0, Document to 0.9, Unknown to 0.5, Logo to 0.2, Icon to 0.1 and
Decorative to 0.1. -/
theorem C1_overall_relevance_formula :
    (∀ img : SourceImage,
      (analyze_image img).overall_relevance =
        0.30 * (analyze_image img).size_score +
          0.20 * (analyze_image img).aspect_score +
          0.30 * (analyze_image img).color_diversity_score +
          0.20 * category_bonus (analyze_image img).predicted_category) ∧
    category_bonus .photo = 1.0 ∧ category_bonus .chart = 1.0 ∧
    category_bonus .document = 0.9 ∧ category_bonus .unknown = 0.5 ∧
    category_bonus .logo = 0.2 ∧ category_bonus .icon = 0.1 ∧
    category_bonus .decorative = 0.1 := by
  refine ⟨fun img => rfl, ?_, ?_, ?_, ?_, ?_, ?_, ?_⟩ <;> norm_num [category_bonus]

/-- C5: for every analyzed image with positive dimensions, each score
component (size score, aspect score, color diversity score) lies in [0,1],
and the overall relevance lies in [0,1]. -/
theorem C5_scores_in_unit_interval (width height : ℕ) (colors : Option ℕ)
    (hw : 0 < width) (hh : 0 < height) :
    (0 ≤ (analyze_image ⟨width, height, colors⟩).size_score ∧
      (analyze_image ⟨width, height, colors⟩).size_score ≤ 1) ∧
    (0 ≤ (analyze_image ⟨width, height, colors⟩).aspect_score ∧
      (analyze_image ⟨width, height, colors⟩).aspect_score ≤ 1) ∧
    (0 ≤ (analyze_image ⟨width, height, colors⟩).color_diversity_score ∧
      (analyze_image ⟨width, height, colors⟩).color_diversity_score ≤ 1) ∧
    (0 ≤ (analyze_image ⟨width, height, colors⟩).overall_relevance ∧
      (analyze_image ⟨width, height, colors⟩).overall_relevance ≤ 1) := by
  have hs := calculate_size_score_mem width height
  have ha := calculate_aspect_score_mem width height
  have hd := get_color_diversity_snd_mem colors
  have hb := category_bonus_mem
    ((analyze_image ⟨width, height, colors⟩).predicted_category)
  simp only [analyze_image] at hb ⊢
  exact ⟨hs, ha, hd,
    by constructor <;> [nlinarith [hs.1, ha.1, hd.1, hb.1];
      nlinarith [hs.2, ha.2, hd.2, hb.2]]⟩

/-- Witness for C5 at a concrete 100×100 single-color image. -/
theorem C5_scores_in_unit_interval_witness :
    0 < 100 ∧
    ((0 ≤ (analyze_image ⟨100, 100, some 1⟩).size_score ∧
      (analyze_image ⟨100, 100, some 1⟩).size_score ≤ 1) ∧
    (0 ≤ (analyze_image ⟨100, 100, some 1⟩).aspect_score ∧
      (analyze_image ⟨100, 100, some 1⟩).aspect_score ≤ 1) ∧
    (0 ≤ (analyze_image ⟨100, 100, some 1⟩).color_diversity_score ∧
      (analyze_image ⟨100, 100, some 1⟩).color_diversity_score ≤ 1) ∧
    (0 ≤ (analyze_image ⟨100, 100, some 1⟩).overall_relevance ∧
      (analyze_image ⟨100, 100, some 1⟩).overall_relevance ≤ 1)) :=
  ⟨by norm_num,
    C5_scores_in_unit_interval 100 100 (some 1) (by norm_num) (by norm_num)⟩

/-- C7: the color diversity analyzer reports unique_colors = 65536 and
diversity 1.0 when the distinct-color count exceeds 65536; otherwise
diversity 0.0 for at most one color, 1.0 for at least 256, and
log2(unique_colors)/8 in between, always within [0,1]. -/
theorem C7_color_diversity_normalization :
    get_color_diversity none = (65536, 1) ∧
    (∀ n : ℕ, (get_color_diversity (some n)).1 = n) ∧
    (∀ n : ℕ, n ≤ 1 → (get_color_diversity (some n)).2 = 0) ∧
    (∀ n : ℕ, 256 ≤ n → (get_color_diversity (some n)).2 = 1) ∧
    (∀ n : ℕ, 1 < n → n < 256 →
      (get_color_diversity (some n)).2 = Real.logb 2 n / 8) ∧
    (∀ colors : Option ℕ,
      0 ≤ (get_color_diversity colors).2 ∧ (get_color_diversity colors).2 ≤ 1) := by
  refine ⟨rfl, fun n => ?_, fun n h => ?_, fun n h => ?_, fun n h1 h2 => ?_,
    get_color_diversity_snd_mem⟩
  · simp only [get_color_diversity]
    split_ifs <;> rfl
  · simp [get_color_diversity, h]
  · simp [get_color_diversity, h, show ¬ n ≤ 1 by omega]
  · simp [get_color_diversity, show ¬ n ≤ 1 by omega, show ¬ 256 ≤ n by omega]

/-- Witness for C7 at one color count in each regime: 1, 300, and 10. -/
theorem C7_color_diversity_normalization_witness :
    ((1 : ℕ) ≤ 1 ∧ (get_color_diversity (some 1)).2 = 0) ∧
    ((256 : ℕ) ≤ 300 ∧ (get_color_diversity (some 300)).2 = 1) ∧
    ((1 : ℕ) < 10 ∧ (10 : ℕ) < 256 ∧
      (get_color_diversity (some 10)).2 = Real.logb 2 10 / 8) :=
  ⟨⟨le_refl 1, C7_color_diversity_normalization.2.2.1 1 (le_refl 1)⟩,
    ⟨by norm_num, C7_color_diversity_normalization.2.2.2.1 300 (by norm_num)⟩,
    ⟨by norm_num, by norm_num,
      C7_color_diversity_normalization.2.2.2.2.1 10 (by norm_num) (by norm_num)⟩⟩

/-- C2: the should-process decision is a first-match cascade — too small
(max dimension below 50), then predicted category Icon/Decorative, then Logo
with relevance below 0.4, then relevance below 0.3, else process — and the
skip reason is present exactly when the decision is negative. -/
theorem C2_decision_cascade (img : SourceImage) :
    ((analyze_image img).should_vlm = false ↔
      (analyze_image img).skip_reason ≠ none) ∧
    (max img.width img.height < 50 →
      (analyze_image img).should_vlm = false ∧
      (analyze_image img).skip_reason = some (.tooSmall img.width img.height)) ∧
    (50 ≤ max img.width img.height →
      ((analyze_image img).predicted_category = .icon ∨
        (analyze_image img).predicted_category = .decorative) →
      (analyze_image img).should_vlm = false ∧
      (analyze_image img).skip_reason =
        some (.predictedCategory (analyze_image img).predicted_category)) ∧
    (50 ≤ max img.width img.height →
      ¬((analyze_image img).predicted_category = .icon ∨
        (analyze_image img).predicted_category = .decorative) →
      (analyze_image img).predicted_category = .logo →
      (analyze_image img).overall_relevance < 0.4 →
      (analyze_image img).should_vlm = false ∧
      (analyze_image img).skip_reason =
        some (.likelyLogo (analyze_image img).overall_relevance)) ∧
    (50 ≤ max img.width img.height →
      ¬((analyze_image img).predicted_category = .icon ∨
        (analyze_image img).predicted_category = .decorative) →
      ¬((analyze_image img).predicted_category = .logo ∧
        (analyze_image img).overall_relevance < 0.4) →
      (analyze_image img).overall_relevance < 0.3 →
      (analyze_image img).should_vlm = false ∧
      (analyze_image img).skip_reason =
        some (.lowRelevance (analyze_image img).overall_relevance)) ∧
    (50 ≤ max img.width img.height →
      ¬((analyze_image img).predicted_category = .icon ∨
        (analyze_image img).predicted_category = .decorative) →
      ¬((analyze_image img).predicted_category = .logo ∧
        (analyze_image img).overall_relevance < 0.4) →
      ¬((analyze_image img).overall_relevance < 0.3) →
      (analyze_image img).should_vlm = true ∧
      (analyze_image img).skip_reason = none) := by
  simp only [analyze_image, MIN_DIMENSION_VLM, MIN_RELEVANCE_SCORE]
  split_ifs with h1 h2 h3 h4
  · exact ⟨by simp, fun _ => ⟨rfl, rfl⟩,
      fun hge _ => absurd h1 (not_lt.mpr hge),
      fun hge _ _ _ => absurd h1 (not_lt.mpr hge),
      fun hge _ _ _ => absurd h1 (not_lt.mpr hge),
      fun hge _ _ _ => absurd h1 (not_lt.mpr hge)⟩
  · exact ⟨by simp, fun hlt => absurd hlt h1,
      fun _ _ => ⟨rfl, rfl⟩,
      fun _ hn _ _ => absurd h2 hn,
      fun _ hn _ _ => absurd h2 hn,
      fun _ hn _ _ => absurd h2 hn⟩
  · exact ⟨by simp, fun hlt => absurd hlt h1,
      fun _ hor => absurd hor h2,
      fun _ _ _ _ => ⟨rfl, rfl⟩,
      fun _ _ hn _ => absurd h3 hn,
      fun _ _ hn _ => absurd h3 hn⟩
  · exact ⟨by simp, fun hlt => absurd hlt h1,
      fun _ hor => absurd hor h2,
      fun _ _ hl hr => absurd ⟨hl, hr⟩ h3,
      fun _ _ _ _ => ⟨rfl, rfl⟩,
      fun _ _ _ hn => absurd h4 hn⟩
  · exact ⟨by simp, fun hlt => absurd hlt h1,
      fun _ hor => absurd hor h2,
      fun _ _ hl hr => absurd ⟨hl, hr⟩ h3,
      fun _ _ _ hr => absurd hr h4,
      fun _ _ _ _ => ⟨rfl, rfl⟩⟩

/-- Witness for C2 at a concrete 30×30 image, exercising the too-small
branch of the cascade. -/
theorem C2_decision_cascade_witness :
    max 30 30 < 50 ∧
    (analyze_image ⟨30, 30, some 10⟩).should_vlm = false ∧
    (analyze_image ⟨30, 30, some 10⟩).skip_reason = some (.tooSmall 30 30) :=
  ⟨by norm_num, (C2_decision_cascade ⟨30, 30, some 10⟩).2.1 (by norm_num)⟩

/-- Counterexample to C3 as stated: a 600×100 image has aspect ratio exactly
6.0, yet with 300 sampled colors the classifier assigns Photo, not
Decorative, and the verdict is should_process = true — the rule
`aspect_ratio > 6` does not fire at ratio exactly 6. -/
theorem C3_counterexample :
    (analyze_image ⟨600, 100, some 300⟩).aspect_ratio_value = 6 ∧
    (analyze_image ⟨600, 100, some 300⟩).predicted_category = .photo ∧
    (analyze_image ⟨600, 100, some 300⟩).predicted_category ≠ .decorative ∧
    (analyze_image ⟨600, 100, some 300⟩).should_vlm = true ∧
    (analyze_image ⟨600, 100, some 300⟩).skip_reason = none := by
  unfold analyze_image get_color_diversity predict_category
      calculate_size_score calculate_aspect_score category_bonus
  norm_num [MIN_DIMENSION_VLM, MIN_RELEVANCE_SCORE, LOGO_COLOR_THRESHOLD]
  rw [if_neg (show ¬(ImageCategory.photo = ImageCategory.icon ∨
    ImageCategory.photo = ImageCategory.decorative) by decide)]
  exact ⟨by decide, rfl, rfl⟩

/-- Classifier rule 4 of the source: with the three earlier rules ruled out
by a large max dimension, a strict aspect ratio above 6 yields Decorative,
whatever the color data. -/
lemma predict_category_decorative (width height unique_colors : ℕ)
    (color_diversity : ℝ) (hmin : 0 < min width height)
    (hmax : 400 ≤ max width height)
    (hr : 6 < ((max width height : ℕ) : ℝ) / ((min width height : ℕ) : ℝ)) :
    predict_category width height unique_colors color_diversity = .decorative := by
  simp only [predict_category, LOGO_COLOR_THRESHOLD]
  rw [if_neg (by omega), if_neg (by omega), if_neg (by omega),
    if_pos hmin, if_pos hr]

/-- C3 amended: for every image with positive dimensions, max dimension at
least 400 and aspect ratio strictly greater than 6 (e.g. a 700×100 banner),
the classifier assigns Decorative regardless of the color data, and the
verdict is should_process = false with a reason referencing the category;
the classifier rule maps aspect_ratio > 6 (strictly) to Decorative. -/
theorem C3_decorative_banner (width height : ℕ) (colors : Option ℕ)
    (hmin : 0 < min width height) (hmax : 400 ≤ max width height)
    (hr : 6 < ((max width height : ℕ) : ℝ) / ((min width height : ℕ) : ℝ)) :
    (analyze_image ⟨width, height, colors⟩).predicted_category = .decorative ∧
    (analyze_image ⟨width, height, colors⟩).should_vlm = false ∧
    (analyze_image ⟨width, height, colors⟩).skip_reason =
      some (.predictedCategory .decorative) := by
  have hcat := predict_category_decorative width height
    (get_color_diversity colors).1 (get_color_diversity colors).2 hmin hmax hr
  simp only [analyze_image, MIN_DIMENSION_VLM]
  rw [if_neg (show ¬ max width height < 50 by omega)]
  simp [hcat]

/-- Witness for the amended C3 at a concrete 700×100 banner with 3 sampled
colors. -/
theorem C3_decorative_banner_witness :
    0 < min 700 100 ∧ 400 ≤ max 700 100 ∧
    (6 : ℝ) < ((max 700 100 : ℕ) : ℝ) / ((min 700 100 : ℕ) : ℝ) ∧
    (analyze_image ⟨700, 100, some 3⟩).predicted_category = .decorative ∧
    (analyze_image ⟨700, 100, some 3⟩).should_vlm = false ∧
    (analyze_image ⟨700, 100, some 3⟩).skip_reason =
      some (.predictedCategory .decorative) :=
  ⟨by norm_num, by norm_num, by norm_num,
    C3_decorative_banner 700 100 (some 3) (by norm_num) (by norm_num) (by norm_num)⟩

/-- Counterexample to C4 as stated: a 5000×101 input with OCR bound 4800 has
scale 0.96, and the code produces output_height 96 (truncation of 96.96),
while round(101*0.96) = 97 — the spec's `round` disagrees with the code's
`int` truncation. -/
theorem C4_counterexample :
    (resize_for_ocr 5000 101 4800).output_height = 96 ∧
    roundHalfEven ((101 : ℚ) * ((4800 : ℚ) / (5000 : ℚ))) = 97 ∧
    (96 : ℕ) ≠ 97 := by
  refine ⟨?_, ?_, by norm_num⟩
  · norm_num [resize_for_ocr]
    decide
  · norm_num [roundHalfEven]

/-- C4 amended: for every image whose width exceeds the OCR bound, the OCR
resize reports resized = true, output_width equal to the bound, output_height
equal to int(original_height*scale) — i.e. original_height*scale truncated
toward zero, the floor for these nonnegative values, not round — and
scale_factor equal to scale = bound/original_width (the source rounds the
reported copy to 4 decimal places); in particular a 5000-px-wide image with
bound 4800 yields output_height = floor(original_height*0.96) and
scale_factor = 0.96. -/
theorem C4_ocr_resize_formula :
    (∀ w h b : ℕ, b < w →
      resize_for_ocr w h b =
        { resized := true, original_width := w, original_height := h,
          output_width := b,
          output_height := (⌊(h : ℚ) * ((b : ℚ) / (w : ℚ))⌋).toNat,
          scale_factor := some ((b : ℚ) / (w : ℚ)) }) ∧
    (∀ h : ℕ,
      resize_for_ocr 5000 h 4800 =
        { resized := true, original_width := 5000, original_height := h,
          output_width := 4800,
          output_height := (⌊(h : ℚ) * (96 / 100 : ℚ)⌋).toNat,
          scale_factor := some (96 / 100 : ℚ) }) := by
  have main : ∀ w h b : ℕ, b < w →
      resize_for_ocr w h b =
        { resized := true, original_width := w, original_height := h,
          output_width := b,
          output_height := (⌊(h : ℚ) * ((b : ℚ) / (w : ℚ))⌋).toNat,
          scale_factor := some ((b : ℚ) / (w : ℚ)) } := by
    intro w h b hb
    simp only [resize_for_ocr]
    rw [if_neg (by omega)]
  refine ⟨main, fun h => (main 5000 h 4800 (by norm_num)).trans ?_⟩
  norm_num

/-- Witness for the amended C4 at the 5000×101 page with bound 4800. -/
theorem C4_ocr_resize_formula_witness :
    4800 < 5000 ∧
    resize_for_ocr 5000 101 4800 =
      { resized := true, original_width := 5000, original_height := 101,
        output_width := 4800,
        output_height := (⌊(101 : ℚ) * ((4800 : ℚ) / (5000 : ℚ))⌋).toNat,
        scale_factor := some ((4800 : ℚ) / (5000 : ℚ)) } :=
  ⟨by norm_num, C4_ocr_resize_formula.1 5000 101 4800 (by norm_num)⟩

/-- Counterexample to C6 as stated: a 30×30 input satisfies the VLM bound
2048, yet the VLM profile reports it skipped (too small), with no
resized = false record and no output dimensions. -/
theorem C6_counterexample :
    resize_for_vlm 30 30 2048 50 = .skipped 30 30 ∧
    VlmOutcome.skipped 30 30 ≠
      VlmOutcome.finished
        { resized := false, original_width := 30, original_height := 30,
          output_width := 30, output_height := 30, scale_factor := none } := by
  exact ⟨by norm_num [resize_for_vlm], by decide⟩

/-- C6 amended: neither resize profile ever increases a dimension, and any
reported scale factor is at most 1; an input already within the bound is
reported resized = false with output dimensions equal to the input — for the
VLM profile this applies to inputs at or above the skip threshold, while
smaller inputs are reported skipped with no output dimensions at all. -/
theorem C6_resize_never_upsamples :
    (∀ w h b : ℕ,
      (resize_for_ocr w h b).output_width ≤ w ∧
      (resize_for_ocr w h b).output_height ≤ h ∧
      (∀ s : ℚ, (resize_for_ocr w h b).scale_factor = some s → s ≤ 1)) ∧
    (∀ w h b : ℕ, w ≤ b →
      resize_for_ocr w h b =
        { resized := false, original_width := w, original_height := h,
          output_width := w, output_height := h, scale_factor := none }) ∧
    (∀ w h bd sb : ℕ, ∀ r : ResizeResult,
      resize_for_vlm w h bd sb = .finished r →
      r.output_width ≤ w ∧ r.output_height ≤ h ∧
      (∀ s : ℚ, r.scale_factor = some s → s ≤ 1)) ∧
    (∀ w h bd sb : ℕ, sb ≤ max w h → max w h ≤ bd →
      resize_for_vlm w h bd sb =
        .finished
          { resized := false, original_width := w, original_height := h,
            output_width := w, output_height := h, scale_factor := none }) ∧
    (∀ w h bd sb : ℕ, max w h < sb →
      resize_for_vlm w h bd sb = .skipped w h) := by
  have scale_le_one : ∀ b w : ℕ, b ≤ w → 0 < w → (b : ℚ) / (w : ℚ) ≤ 1 := by
    intro b w hbw hw
    rw [div_le_one (by exact_mod_cast hw)]
    exact_mod_cast hbw
  have floor_mul_le : ∀ (d b w : ℕ), b ≤ w → 0 < w →
      (⌊(d : ℚ) * ((b : ℚ) / (w : ℚ))⌋).toNat ≤ d := by
    intro d b w hbw hw
    have h1 : (d : ℚ) * ((b : ℚ) / (w : ℚ)) ≤ (d : ℚ) := by
      have := scale_le_one b w hbw hw
      nlinarith [show (0:ℚ) ≤ (d:ℚ) by positivity]
    have h2 : ⌊(d : ℚ) * ((b : ℚ) / (w : ℚ))⌋ ≤ (d : ℤ) := by
      calc ⌊(d : ℚ) * ((b : ℚ) / (w : ℚ))⌋ ≤ ⌊(d : ℚ)⌋ := Int.floor_le_floor h1
        _ = (d : ℤ) := Int.floor_natCast d
    omega
  refine ⟨?_, ?_, ?_, ?_, ?_⟩
  · intro w h b
    by_cases hwb : w ≤ b
    · simp [resize_for_ocr, hwb]
    · have hw : 0 < w := by omega
      have hbw : b ≤ w := by omega
      simp only [resize_for_ocr, if_neg hwb]
      refine ⟨by omega, floor_mul_le h b w hbw hw, ?_⟩
      intro s hs
      obtain rfl : (b : ℚ) / (w : ℚ) = s := by
        simpa using hs
      exact scale_le_one b w hbw hw
  · intro w h b hwb
    simp [resize_for_ocr, hwb]
  · intro w h bd sb r hr
    by_cases hskip : max w h < sb
    · simp only [resize_for_vlm, if_pos hskip] at hr
      exact absurd hr (by simp)
    · by_cases hfit : max w h ≤ bd
      · simp only [resize_for_vlm, if_neg hskip, if_pos hfit] at hr
        injection hr with h'
        subst h'
        exact ⟨le_refl w, le_refl h, by simp⟩
      · have hmax : 0 < max w h := by omega
        have hbd : bd ≤ max w h := by omega
        simp only [resize_for_vlm, if_neg hskip, if_neg hfit] at hr
        injection hr with h'
        subst h'
        refine ⟨floor_mul_le w bd (max w h) hbd hmax,
          floor_mul_le h bd (max w h) hbd hmax, ?_⟩
        intro s hs
        have h2 : (bd : ℚ) / ((max w h : ℕ) : ℚ) = s := Option.some.inj hs
        rw [← h2]
        exact scale_le_one bd (max w h) hbd hmax
  · intro w h bd sb hsb hbd
    simp only [resize_for_vlm]
    rw [if_neg (by omega), if_pos hbd]
  · intro w h bd sb hlt
    simp only [resize_for_vlm]
    rw [if_pos hlt]

/-- Witness for the amended C6: copy-through cases of both profiles, the
skip case, and a concrete downscale 5000×2500 → 4800×2400 with scale
24/25 ≤ 1. -/
theorem C6_resize_never_upsamples_witness :
    (100 ≤ 4800 ∧
      resize_for_ocr 100 50 4800 =
        { resized := false, original_width := 100, original_height := 50,
          output_width := 100, output_height := 50, scale_factor := none }) ∧
    (50 ≤ max 100 50 ∧ max 100 50 ≤ 2048 ∧
      resize_for_vlm 100 50 2048 50 =
        .finished
          { resized := false, original_width := 100, original_height := 50,
            output_width := 100, output_height := 50, scale_factor := none }) ∧
    (max 30 30 < 50 ∧ resize_for_vlm 30 30 2048 50 = .skipped 30 30) ∧
    ((resize_for_ocr 5000 2500 4800).output_width ≤ 5000 ∧
      (resize_for_ocr 5000 2500 4800).output_height ≤ 2500 ∧
      ((4800 : ℚ) / (5000 : ℚ) ≤ 1)) :=
  ⟨⟨by norm_num, C6_resize_never_upsamples.2.1 100 50 4800 (by norm_num)⟩,
    ⟨by norm_num, by norm_num,
      C6_resize_never_upsamples.2.2.2.1 100 50 2048 50 (by norm_num) (by norm_num)⟩,
    ⟨by norm_num, C6_resize_never_upsamples.2.2.2.2 30 30 2048 50 (by norm_num)⟩,
    ⟨(C6_resize_never_upsamples.1 5000 2500 4800).1,
      (C6_resize_never_upsamples.1 5000 2500 4800).2.1,
      (C6_resize_never_upsamples.1 5000 2500 4800).2.2 ((4800 : ℚ) / (5000 : ℚ))
        (by norm_num [resize_for_ocr])⟩⟩

/-- Processing one entry only ever appends to the `images` array. -/
lemma processEntry_images_mono (acc : DirResults) (e : DirEntry) (x : ImageEntry)
    (hx : x ∈ acc.images) : x ∈ (processEntry acc e).images := by
  simp only [processEntry]
  split
  · split
    · exact List.mem_append_left _ hx
    · split_ifs <;> exact List.mem_append_left _ hx
  · exact hx

/-- The batch fold only ever appends to the `images` array. -/
lemma foldl_images_mono (l : List DirEntry) (acc : DirResults) (x : ImageEntry)
    (hx : x ∈ acc.images) : x ∈ (l.foldl processEntry acc).images := by
  induction l generalizing acc with
  | nil => exact hx
  | cons e t ih => exact ih _ (processEntry_images_mono acc e x hx)

/-- Processing one entry preserves the bucket-partition invariant: the file
tally equals the five buckets plus the error entries, and every counted file
has exactly one entry in `images`. -/
lemma processEntry_invariant (acc : DirResults) (e : DirEntry)
    (h1 : acc.total = acc.should_vlm + acc.skip_too_small + acc.skip_logo_icon +
      acc.skip_decorative + acc.skip_low_relevance +
      acc.images.countP ImageEntry.isErr)
    (h2 : acc.images.length = acc.total) :
    (processEntry acc e).total = (processEntry acc e).should_vlm +
      (processEntry acc e).skip_too_small + (processEntry acc e).skip_logo_icon +
      (processEntry acc e).skip_decorative + (processEntry acc e).skip_low_relevance +
      (processEntry acc e).images.countP ImageEntry.isErr ∧
    (processEntry acc e).images.length = (processEntry acc e).total := by
  simp only [processEntry]
  split
  · split
    · constructor
      · simp only [List.countP_append, List.countP_cons, List.countP_nil,
          ImageEntry.isErr, if_true, if_false, Bool.false_eq_true]
        omega
      · simp only [List.length_append, List.length_cons, List.length_nil]
        omega
    · split_ifs <;> constructor <;>
        simp only [List.countP_append, List.countP_cons, List.countP_nil,
          ImageEntry.isErr, if_true, if_false, Bool.false_eq_true,
          List.length_append, List.length_cons, List.length_nil] <;>
        omega
  · exact ⟨h1, h2⟩

/-- The batch fold preserves the bucket-partition invariant. -/
lemma foldl_invariant (l : List DirEntry) (acc : DirResults)
    (h1 : acc.total = acc.should_vlm + acc.skip_too_small + acc.skip_logo_icon +
      acc.skip_decorative + acc.skip_low_relevance +
      acc.images.countP ImageEntry.isErr)
    (h2 : acc.images.length = acc.total) :
    (l.foldl processEntry acc).total = (l.foldl processEntry acc).should_vlm +
      (l.foldl processEntry acc).skip_too_small +
      (l.foldl processEntry acc).skip_logo_icon +
      (l.foldl processEntry acc).skip_decorative +
      (l.foldl processEntry acc).skip_low_relevance +
      (l.foldl processEntry acc).images.countP ImageEntry.isErr ∧
    (l.foldl processEntry acc).images.length = (l.foldl processEntry acc).total := by
  induction l generalizing acc with
  | nil => exact ⟨h1, h2⟩
  | cons e t ih =>
    have := processEntry_invariant acc e h1 h2
    exact ih _ this.1 this.2

/-- C8: a per-file decode or analysis failure is recorded as an individual
error entry carrying the path, the error text and should_vlm = false; the
file is still counted in total, and the remaining entries are processed
exactly as if the fold continued from that state — the batch never aborts. -/
theorem C8_batch_error_isolation (d : String) (m : ℝ) (xs ys : List DirEntry)
    (p sfx msg : String) (hmem : sfx ∈ image_extensions) :
    analyze_directory d (xs ++ ⟨p, sfx, .error msg⟩ :: ys) m =
      ys.foldl processEntry
        { analyze_directory d xs m with
          total := (analyze_directory d xs m).total + 1,
          images := (analyze_directory d xs m).images ++ [.err p msg false] } ∧
    ImageEntry.err p msg false ∈
      (analyze_directory d (xs ++ ⟨p, sfx, .error msg⟩ :: ys) m).images := by
  have key : analyze_directory d (xs ++ ⟨p, sfx, .error msg⟩ :: ys) m =
      ys.foldl processEntry
        { analyze_directory d xs m with
          total := (analyze_directory d xs m).total + 1,
          images := (analyze_directory d xs m).images ++ [.err p msg false] } := by
    unfold analyze_directory
    rw [List.foldl_append, List.foldl_cons]
    congr 1
    unfold processEntry
    rw [if_pos hmem]
  refine ⟨key, ?_⟩
  rw [key]
  exact foldl_images_mono ys _ _ (by simp)

/-- Witness for C8: a one-file directory whose only file fails to decode. -/
theorem C8_batch_error_isolation_witness :
    (".png" : String) ∈ image_extensions ∧
    analyze_directory "imgs" [⟨"imgs/a.png", ".png", .error "decode failed"⟩] 0.3 =
      ([] : List DirEntry).foldl processEntry
        { analyze_directory "imgs" [] 0.3 with
          total := (analyze_directory "imgs" [] 0.3).total + 1,
          images := (analyze_directory "imgs" [] 0.3).images ++
            [.err "imgs/a.png" "decode failed" false] } ∧
    ImageEntry.err "imgs/a.png" "decode failed" false ∈
      (analyze_directory "imgs" [⟨"imgs/a.png", ".png", .error "decode failed"⟩] 0.3).images := by
  have hmem : (".png" : String) ∈ image_extensions := by decide
  have := C8_batch_error_isolation "imgs" 0.3 [] []
    "imgs/a.png" ".png" "decode failed" hmem
  exact ⟨hmem, this.1, this.2⟩

/-- C9: the min_relevance parameter of the directory batch has no effect on
any field of the output — the batch result is identical for every pair of
values. -/
theorem C9_min_relevance_has_no_effect (d : String) (entries : List DirEntry)
    (m₁ m₂ : ℝ) :
    analyze_directory d entries m₁ = analyze_directory d entries m₂ := rfl

/-- C10: in every batch result the five outcome buckets partition the
successfully analyzed files: total = should_vlm + skip_too_small +
skip_logo_icon + skip_decorative + skip_low_relevance + (number of error
entries in images), and every counted file contributes exactly one images
entry. -/
theorem C10_bucket_partition (d : String) (entries : List DirEntry) (m : ℝ) :
    (analyze_directory d entries m).total =
      (analyze_directory d entries m).should_vlm +
      (analyze_directory d entries m).skip_too_small +
      (analyze_directory d entries m).skip_logo_icon +
      (analyze_directory d entries m).skip_decorative +
      (analyze_directory d entries m).skip_low_relevance +
      (analyze_directory d entries m).images.countP ImageEntry.isErr ∧
    (analyze_directory d entries m).images.length =
      (analyze_directory d entries m).total := by
  unfold analyze_directory
  exact foldl_invariant entries _ (by simp) (by simp)

end ImageOptimizer
